import Mathlib

/-!
Verification of the session-orchestration core of an interview-coaching
dialogue system: the stage state machine, the input validator, the
exception/recovery handler and the safe module-call wrapper, embedded
shallowly from `core_models.py`, `exception_handler.py` and
`module_interface.py`.
-/

/-- The 7 coaching stages (`core_models.Stage`). -/
inductive Stage where
  | PROBLEM_CLARIFICATION
  | THOUGHT_ARTICULATION
  | COMPLEXITY_ANALYSIS
  | PSEUDOCODE_DESIGN
  | EDGE_CASE_CHECK
  | FOLLOW_UP
  | PATTERN_SUMMARY
deriving DecidableEq, Repr

/-- Exception severities (`core_models.ExceptionLevel`). -/
inductive ExceptionLevel where
  | CRITICAL
  | ERROR
  | WARNING
  | INFO
deriving DecidableEq, Repr

/-- Values carried in the free-form dictionaries (`context_updates`,
`metadata`, keyword arguments): booleans, numbers, strings, string lists and
stage lists, which are the value shapes the source actually stores there. -/
inductive CtxValue where
  | bool (b : Bool)
  | nat (n : Nat)
  | str (s : String)
  | strs (l : List String)
  | stages (l : List Stage)
deriving DecidableEq, Repr

/-- One chat message (`core_models.Message`). -/
structure Message where
  role : String
  content : String
  timestamp : Nat
  stage : Stage
deriving DecidableEq, Repr

/-- The session state (`core_models.InterviewContext`). -/
structure InterviewContext where
  session_id : String
  problem_text : String
  problem_metadata : List (String × CtxValue)
  current_stage : Stage
  stage_history : List Stage
  stage_start_time : Nat
  conversation_history : List Message
  current_user_input : String
  identified_pattern : Option String := none
  complexity_expectation : Option String := none
  user_approach : Option String := none
  pseudocode : Option String := none
  detected_issues : List String := []
  consecutive_invalid_inputs : Nat := 0
  skip_requested : Bool := false
  skipped_stages : List Stage := []
  frustration_detected : Bool := false
  answer_requests : Nat := 0
  metadata : List (String × CtxValue) := []
  user_profile : Option (List (String × CtxValue)) := none
deriving DecidableEq, Repr

/-- The uniform result envelope (`core_models.ModuleResponse`). -/
structure ModuleResponse where
  success : Bool
  assistant_message : String
  next_stage : Option Stage
  context_updates : List (String × CtxValue)
  metadata : List (String × CtxValue)
  error_message : Option String := none
  exception_level : Option ExceptionLevel := none
deriving DecidableEq, Repr

/-- `core_models.create_success_response`: keyword arguments become the
`context_updates` association list, in keyword order. -/
def create_success_response (message : String) (next_stage : Option Stage)
    (context_updates : List (String × CtxValue)) : ModuleResponse :=
  { success := true
    assistant_message := message
    next_stage := next_stage
    context_updates := context_updates
    metadata := [] }

/-- `core_models.create_error_response`. -/
def create_error_response (error_msg : String) (level : ExceptionLevel) : ModuleResponse :=
  { success := false
    assistant_message := "I encountered an issue. Let me try to help you another way."
    next_stage := none
    context_updates := []
    metadata := []
    error_message := some error_msg
    exception_level := some level }

/-- `core_models.STAGE_TRANSITION_RULES`, the dict mapping each stage to its
successor (`None` for the terminal summary stage). -/
def STAGE_TRANSITION_RULES : Stage → Option Stage
  | Stage.PROBLEM_CLARIFICATION => some Stage.THOUGHT_ARTICULATION
  | Stage.THOUGHT_ARTICULATION => some Stage.COMPLEXITY_ANALYSIS
  | Stage.COMPLEXITY_ANALYSIS => some Stage.PSEUDOCODE_DESIGN
  | Stage.PSEUDOCODE_DESIGN => some Stage.EDGE_CASE_CHECK
  | Stage.EDGE_CASE_CHECK => some Stage.FOLLOW_UP
  | Stage.FOLLOW_UP => some Stage.PATTERN_SUMMARY
  | Stage.PATTERN_SUMMARY => none

/-- `core_models.SKIPPABLE_STAGES`. -/
def SKIPPABLE_STAGES : List Stage :=
  [Stage.COMPLEXITY_ANALYSIS, Stage.PATTERN_SUMMARY]

/-- `core_models.CRITICAL_STAGES`. -/
def CRITICAL_STAGES : List Stage :=
  [Stage.THOUGHT_ARTICULATION, Stage.PSEUDOCODE_DESIGN, Stage.EDGE_CASE_CHECK]

/-- C3: the stage transition table is total over all 7 stages, yields the
fixed chain clarification → articulation → complexity → pseudocode →
edge-case → follow-up → summary, returns exactly one successor for every
non-terminal stage, and returns none exactly at the terminal summary stage. -/
theorem stage_transition_table_total_chain :
    STAGE_TRANSITION_RULES Stage.PROBLEM_CLARIFICATION = some Stage.THOUGHT_ARTICULATION ∧
    STAGE_TRANSITION_RULES Stage.THOUGHT_ARTICULATION = some Stage.COMPLEXITY_ANALYSIS ∧
    STAGE_TRANSITION_RULES Stage.COMPLEXITY_ANALYSIS = some Stage.PSEUDOCODE_DESIGN ∧
    STAGE_TRANSITION_RULES Stage.PSEUDOCODE_DESIGN = some Stage.EDGE_CASE_CHECK ∧
    STAGE_TRANSITION_RULES Stage.EDGE_CASE_CHECK = some Stage.FOLLOW_UP ∧
    STAGE_TRANSITION_RULES Stage.FOLLOW_UP = some Stage.PATTERN_SUMMARY ∧
    (∀ s : Stage, STAGE_TRANSITION_RULES s = none ↔ s = Stage.PATTERN_SUMMARY) := by
  refine ⟨rfl, rfl, rfl, rfl, rfl, rfl, ?_⟩
  intro s; cases s <;> simp [STAGE_TRANSITION_RULES]

/-- Chinese display name per stage (`ExceptionHandler._get_stage_name_cn`). -/
def ExceptionHandler.get_stage_name_cn : Stage → String
  | Stage.PROBLEM_CLARIFICATION => "题意确认"
  | Stage.THOUGHT_ARTICULATION => "思路讲解"
  | Stage.COMPLEXITY_ANALYSIS => "复杂度分析"
  | Stage.PSEUDOCODE_DESIGN => "代码实现"
  | Stage.EDGE_CASE_CHECK => "边界检查"
  | Stage.FOLLOW_UP => "深入讨论"
  | Stage.PATTERN_SUMMARY => "总结"

/-- Skip reminder per stage (`ExceptionHandler._get_skip_reminder`); the dict
has entries only for the two skippable stages, the rest get the default. -/
def ExceptionHandler.get_skip_reminder : Stage → String
  | Stage.COMPLEXITY_ANALYSIS => "discussing complexity shows analytical maturity"
  | Stage.PATTERN_SUMMARY => "summarizing patterns helps you in future problems"
  | _ => "this step is valuable"

/-- `ExceptionHandler._get_next_stage`: a lookup in `STAGE_TRANSITION_RULES`. -/
def ExceptionHandler.get_next_stage (current : Stage) : Option Stage :=
  STAGE_TRANSITION_RULES current

/-- Per-stage fallback templates (`ExceptionHandler._get_fallback_template`). -/
def ExceptionHandler.get_fallback_template : Stage → String
  | Stage.PROBLEM_CLARIFICATION => "Let's make sure we understand the problem. What are the inputs and expected outputs?"
  | Stage.THOUGHT_ARTICULATION => "Let's think about this step by step. What would be the simplest approach to solve this, even if not optimal?"
  | Stage.COMPLEXITY_ANALYSIS => "Can you analyze the time and space complexity of your approach?"
  | Stage.PSEUDOCODE_DESIGN => "Now let's write out the pseudocode or main logic structure."
  | Stage.EDGE_CASE_CHECK => "What edge cases should we consider? Think about empty inputs, extreme values, etc."
  | Stage.FOLLOW_UP => "Great work! Now let's think about: could we optimize this further?"
  | Stage.PATTERN_SUMMARY => "Let's summarize: what pattern did we use here, and when would you use it again?"

/-- `ExceptionHandler.handle_skip_request`, in state-passing style: the first
component is the session state as the method leaves it (the body only reads
`context`), the second the returned response. -/
def ExceptionHandler.handle_skip_request (context : InterviewContext) :
    InterviewContext × ModuleResponse :=
  if context.current_stage ∈ CRITICAL_STAGES then
    (context, create_success_response
      ("I understand you want to move forward, but this stage is crucial for interview success. In real interviews, skipping **"
        ++ ExceptionHandler.get_stage_name_cn context.current_stage
        ++ "** would be a red flag. How about we spend just 2-3 minutes on this? It'll make a big difference.")
      none
      [("skip_requested", CtxValue.bool true)])
  else if context.current_stage ∈ SKIPPABLE_STAGES then
    (context, create_success_response
      ("Okay, we can move on for now. But remember, in a real interview, "
        ++ ExceptionHandler.get_skip_reminder context.current_stage
        ++ ". Let's continue to the next part.")
      (ExceptionHandler.get_next_stage context.current_stage)
      [("skipped_stages", CtxValue.stages (context.skipped_stages ++ [context.current_stage]))])
  else
    (context, create_success_response
      "Let's complete this part first before moving on." none [])

/-- The canned clarification templates of `ExceptionHandler.handle_invalid_input`. -/
def ExceptionHandler.invalid_templates : String → Option String
  | "empty" => some "I didn't catch that. Could you share your thoughts?"
  | "too_short" => some "That's a bit brief! Could you elaborate a bit more?"
  | "off_topic" => some "Hmm, that seems unrelated. Let me rephrase the question."
  | "repeated" => some "I notice you've said something similar before. Want to try a different angle?"
  | _ => none

/-- `ExceptionHandler._trigger_help_mode`. -/
def ExceptionHandler.trigger_help_mode (context : InterviewContext) :
    InterviewContext × ModuleResponse :=
  (context, create_success_response
    "I notice you might be stuck. No worries! Let me help you with a more detailed hint.\n\nTry thinking about it this way: [具体的引导问题会在这里生成]"
    none
    [("consecutive_invalid_inputs", CtxValue.nat 0),
     ("help_mode_triggered", CtxValue.bool true)])

/-- `ExceptionHandler.handle_invalid_input`. -/
def ExceptionHandler.handle_invalid_input (context : InterviewContext)
    (input_type : String) : InterviewContext × ModuleResponse :=
  if context.consecutive_invalid_inputs + 1 ≥ 3 then
    ExceptionHandler.trigger_help_mode context
  else
    (context, create_success_response
      ((ExceptionHandler.invalid_templates input_type).getD
        "I didn't catch that. Could you share your thoughts?")
      none
      [("consecutive_invalid_inputs", CtxValue.nat (context.consecutive_invalid_inputs + 1))])

/-- The fixed encouragement pool of `ExceptionHandler.handle_frustration`. -/
def ExceptionHandler.encouragements : List String :=
  ["I can tell this is challenging, and that's completely normal! Even experienced engineers struggle with these problems at first.",
   "Let me help you break this down into smaller steps. We'll tackle it together.",
   "How about we approach this differently? Sometimes a fresh angle makes all the difference."]

/-- `ExceptionHandler.handle_frustration`; `random.choice` is modelled by the
index `pick` into the pool. -/
def ExceptionHandler.handle_frustration (context : InterviewContext)
    (pick : Fin ExceptionHandler.encouragements.length) :
    InterviewContext × ModuleResponse :=
  (context, create_success_response
    (ExceptionHandler.encouragements.get pick
      ++ "\n\nLet me give you a helpful hint to get started.")
    none
    [("frustration_detected", CtxValue.bool true),
     ("hint_level", CtxValue.str "detailed")])

/-- `ExceptionHandler.handle_llm_failure`, in state-passing style; the middle
component lists the backoff sleeps performed (`time.sleep(2 ** retry_count)`
on the retry path), and the last is `None` (retry signal) or the fallback
response. -/
def ExceptionHandler.handle_llm_failure (context : InterviewContext)
    (retry_count : Nat) (max_retries : Nat) :
    InterviewContext × List Nat × Option ModuleResponse :=
  if retry_count < max_retries then
    (context, [2 ^ retry_count], none)
  else
    (context, [], some (create_success_response
      (ExceptionHandler.get_fallback_template context.current_stage)
      none
      [("fallback_used", CtxValue.bool true)]))

/-- A concrete session state at a given stage, mirroring
`core_models.create_mock_context`. -/
def mock_context (s : Stage) : InterviewContext :=
  { session_id := "test_session"
    problem_text := "Sample problem"
    problem_metadata := [("difficulty", CtxValue.str "Medium"), ("tags", CtxValue.strs ["Array"])]
    current_stage := s
    stage_history := []
    stage_start_time := 0
    conversation_history := []
    current_user_input := "" }

/-- C5: on a skippable stage, a skip request yields a success response whose
suggested next stage is the Stage-Machine successor of the current stage and
whose update instructions extend the skipped-stages list by exactly the
current stage. -/
theorem skip_on_skippable_advances (ctx : InterviewContext)
    (h : ctx.current_stage ∈ SKIPPABLE_STAGES) :
    (ExceptionHandler.handle_skip_request ctx).2.success = true ∧
    (ExceptionHandler.handle_skip_request ctx).2.next_stage =
      STAGE_TRANSITION_RULES ctx.current_stage ∧
    (ExceptionHandler.handle_skip_request ctx).2.context_updates =
      [("skipped_stages", CtxValue.stages (ctx.skipped_stages ++ [ctx.current_stage]))] := by
  have hc : ctx.current_stage ∉ CRITICAL_STAGES := by
    simp only [SKIPPABLE_STAGES, List.mem_cons, List.not_mem_nil, or_false] at h
    rcases h with h | h <;> simp [CRITICAL_STAGES, h]
  unfold ExceptionHandler.handle_skip_request
  rw [if_neg hc, if_pos h]
  exact ⟨rfl, rfl, rfl⟩

/-- Witness for C5 at the complexity-analysis stage. -/
theorem skip_on_skippable_advances_witness :
    (ExceptionHandler.handle_skip_request (mock_context Stage.COMPLEXITY_ANALYSIS)).2.success = true ∧
    (ExceptionHandler.handle_skip_request (mock_context Stage.COMPLEXITY_ANALYSIS)).2.next_stage =
      STAGE_TRANSITION_RULES (mock_context Stage.COMPLEXITY_ANALYSIS).current_stage ∧
    (ExceptionHandler.handle_skip_request (mock_context Stage.COMPLEXITY_ANALYSIS)).2.context_updates =
      [("skipped_stages", CtxValue.stages
        ((mock_context Stage.COMPLEXITY_ANALYSIS).skipped_stages
          ++ [(mock_context Stage.COMPLEXITY_ANALYSIS).current_stage]))] :=
  skip_on_skippable_advances (mock_context Stage.COMPLEXITY_ANALYSIS) (by decide)

/-- C6: on a critical stage, a skip request is refused: success response, no
stage change, and the skip-requested flag set in the update instructions. -/
theorem skip_on_critical_refused (ctx : InterviewContext)
    (h : ctx.current_stage ∈ CRITICAL_STAGES) :
    (ExceptionHandler.handle_skip_request ctx).2.success = true ∧
    (ExceptionHandler.handle_skip_request ctx).2.next_stage = none ∧
    (ExceptionHandler.handle_skip_request ctx).2.context_updates =
      [("skip_requested", CtxValue.bool true)] := by
  unfold ExceptionHandler.handle_skip_request
  rw [if_pos h]
  exact ⟨rfl, rfl, rfl⟩

/-- Witness for C6 at the thought-articulation stage. -/
theorem skip_on_critical_refused_witness :
    (ExceptionHandler.handle_skip_request (mock_context Stage.THOUGHT_ARTICULATION)).2.success = true ∧
    (ExceptionHandler.handle_skip_request (mock_context Stage.THOUGHT_ARTICULATION)).2.next_stage = none ∧
    (ExceptionHandler.handle_skip_request (mock_context Stage.THOUGHT_ARTICULATION)).2.context_updates =
      [("skip_requested", CtxValue.bool true)] :=
  skip_on_critical_refused (mock_context Stage.THOUGHT_ARTICULATION) (by decide)

/-- C7: when the consecutive-invalid-input counter stands at 2 the next
invalid input (count reaching 3) triggers help mode — detailed-hint message,
counter reset to 0 in the update instructions, no stage change; at counter 1
it does not — the counter is set to 2 in the update instructions, no stage
change. -/
theorem invalid_input_help_mode_threshold (ctx : InterviewContext) (t : String) :
    (ExceptionHandler.handle_invalid_input
        { ctx with consecutive_invalid_inputs := 2 } t).2 =
      create_success_response
        "I notice you might be stuck. No worries! Let me help you with a more detailed hint.\n\nTry thinking about it this way: [具体的引导问题会在这里生成]"
        none
        [("consecutive_invalid_inputs", CtxValue.nat 0),
         ("help_mode_triggered", CtxValue.bool true)] ∧
    (ExceptionHandler.handle_invalid_input
        { ctx with consecutive_invalid_inputs := 1 } t).2 =
      create_success_response
        ((ExceptionHandler.invalid_templates t).getD
          "I didn't catch that. Could you share your thoughts?")
        none
        [("consecutive_invalid_inputs", CtxValue.nat 2)] := by
  constructor <;>
    simp [ExceptionHandler.handle_invalid_input, ExceptionHandler.trigger_help_mode]

/-- C8: handling frustration returns a success response with no stage change,
update instructions setting frustration-detected and a "detailed" hint level,
and a message that is one of the three encouragement texts followed by the
fixed hint-offer suffix. -/
theorem frustration_response_shape (ctx : InterviewContext)
    (pick : Fin ExceptionHandler.encouragements.length) :
    (ExceptionHandler.handle_frustration ctx pick).2.success = true ∧
    (ExceptionHandler.handle_frustration ctx pick).2.next_stage = none ∧
    (ExceptionHandler.handle_frustration ctx pick).2.context_updates =
      [("frustration_detected", CtxValue.bool true),
       ("hint_level", CtxValue.str "detailed")] ∧
    ∃ e ∈ ExceptionHandler.encouragements,
      (ExceptionHandler.handle_frustration ctx pick).2.assistant_message =
        e ++ "\n\nLet me give you a helpful hint to get started." := by
  refine ⟨rfl, rfl, rfl, ExceptionHandler.encouragements.get pick, ?_, rfl⟩
  exact ExceptionHandler.encouragements.get_mem pick.1 pick.2

/-- C9: no recovery operation mutates the session state it receives — skip
handling, invalid-input handling, frustration handling and generation-failure
handling all leave every field of the InterviewContext unchanged, carrying
their effects only in the returned response. -/
theorem handlers_preserve_context (ctx : InterviewContext) :
    (ExceptionHandler.handle_skip_request ctx).1 = ctx ∧
    (∀ t : String, (ExceptionHandler.handle_invalid_input ctx t).1 = ctx) ∧
    (∀ pick : Fin ExceptionHandler.encouragements.length,
      (ExceptionHandler.handle_frustration ctx pick).1 = ctx) ∧
    (∀ rc mr : Nat, (ExceptionHandler.handle_llm_failure ctx rc mr).1 = ctx) := by
  refine ⟨?_, fun t => ?_, fun pick => rfl, fun rc mr => ?_⟩
  · unfold ExceptionHandler.handle_skip_request
    split <;> [rfl; skip]
    split <;> rfl
  · unfold ExceptionHandler.handle_invalid_input
    split <;> rfl
  · unfold ExceptionHandler.handle_llm_failure
    split <;> rfl

/-- Python substring containment scan over character lists. -/
def str_contains_aux (needle : List Char) : List Char → Bool
  | [] => needle.isEmpty
  | c :: t => needle.isPrefixOf (c :: t) || str_contains_aux needle t

/-- Python `needle in hay` on strings. -/
def str_contains (hay needle : String) : Bool :=
  str_contains_aux needle.data hay.data

/-- Python `str.strip()`: drop leading and trailing whitespace. -/
def py_strip (s : String) : String :=
  ⟨((s.data.dropWhile Char.isWhitespace).reverse.dropWhile Char.isWhitespace).reverse⟩

/-- The configured off-topic keyword list of `InputValidator.validate`. -/
def InputValidator.off_topic_keywords : List String :=
  ["weather", "天气", "吃饭", "lunch", "游戏", "game"]

/-- The user-authored message texts among the last 3 log entries
(`recent_inputs` inside `InputValidator.validate`). -/
def InputValidator.recent_user_inputs (context : InterviewContext) : List String :=
  ((context.conversation_history.drop (context.conversation_history.length - 3)).filter
    (fun msg => msg.role == "user")).map Message.content

/-- `InputValidator.validate`: the checks in source order, short-circuiting
(the guarded repeated-input block is the conjunction of its two tests). -/
def InputValidator.validate (user_input : String) (context : InterviewContext) :
    Bool × Option String :=
  if user_input = "" ∨ py_strip user_input = "" then
    (false, some "empty")
  else if (py_strip user_input).length < 5 then
    (false, some "too_short")
  else if 3 ≤ context.conversation_history.length ∧
      py_strip user_input ∈ InputValidator.recent_user_inputs context then
    (false, some "repeated")
  else if InputValidator.off_topic_keywords.any
      (fun kw => str_contains user_input.toLower kw) then
    (false, some "off_topic")
  else
    (true, none)

/-- The validator classification as claim C4 words it: empty or
whitespace-only text, trimmed length under 5, exact match after trimming
against a user-authored message among the last 3 log entries (only with at
least 3 prior entries), case-insensitive off-topic keyword substring —
checked in the priority order empty > too_short > repeated > off_topic. -/
def InputValidator.validate_claimed (user_input : String) (context : InterviewContext) :
    Bool × Option String :=
  haveI : Decidable (∃ msg ∈ context.conversation_history.drop
      (context.conversation_history.length - 3),
      msg.role = "user" ∧ py_strip user_input = msg.content) :=
    List.decidableBEx _ _
  if user_input.data.all Char.isWhitespace then
    (false, some "empty")
  else if (py_strip user_input).length < 5 then
    (false, some "too_short")
  else if 3 ≤ context.conversation_history.length ∧
      ∃ msg ∈ context.conversation_history.drop (context.conversation_history.length - 3),
        msg.role = "user" ∧ py_strip user_input = msg.content then
    (false, some "repeated")
  else if ∃ kw ∈ InputValidator.off_topic_keywords, str_contains user_input.toLower kw then
    (false, some "off_topic")
  else
    (true, none)

/-- Membership in `dropWhile` implies membership in the list. -/
theorem mem_of_mem_dropWhile_mem {α : Type} {p : α → Bool} {l : List α} {x : α}
    (h : x ∈ l.dropWhile p) : x ∈ l := by
  induction l with
  | nil => simp at h
  | cons a t ih =>
    rw [List.dropWhile_cons] at h
    split at h
    · exact List.mem_cons_of_mem a (ih h)
    · exact h

/-- Dropping the satisfied head leaves the all-satisfied characterization. -/
theorem all_dropWhile_iff (p : Char → Bool) (l : List Char) :
    (∀ x ∈ l.dropWhile p, p x) ↔ ∀ x ∈ l, p x := by
  constructor
  · intro h x hx
    have := List.takeWhile_append_dropWhile (p := p) (l := l)
    rw [← this] at hx
    rcases List.mem_append.1 hx with hx | hx
    · exact List.mem_takeWhile_imp hx
    · exact h x hx
  · intro h x hx
    exact h x (mem_of_mem_dropWhile_mem hx)

/-- `py_strip` yields the empty string exactly on all-whitespace input. -/
theorem py_strip_eq_empty_iff (s : String) :
    py_strip s = "" ↔ s.data.all Char.isWhitespace := by
  unfold py_strip
  rw [show ("" : String) = ⟨[]⟩ from rfl]
  rw [String.ext_iff]
  simp only [List.reverse_eq_nil_iff, List.dropWhile_eq_nil_iff, List.mem_reverse,
    List.all_eq_true]
  exact all_dropWhile_iff Char.isWhitespace s.data

/-- C4: the input validator implements exactly the claimed classification —
empty or whitespace-only text is `empty`; trimmed length under 5 is
`too_short`; exact match (after trimming) with a user-authored message among
the last 3 log entries, evaluated only with at least 3 prior entries, is
`repeated`; a case-insensitive off-topic keyword substring is `off_topic`;
otherwise valid — with short-circuit priority empty > too_short > repeated >
off_topic. -/
theorem validator_matches_claimed (user_input : String) (ctx : InterviewContext) :
    InputValidator.validate user_input ctx = InputValidator.validate_claimed user_input ctx := by
  have h1 : (user_input = "" ∨ py_strip user_input = "") ↔
      (user_input.data.all Char.isWhitespace = true) := by
    rw [← py_strip_eq_empty_iff]
    constructor
    · rintro (h | h)
      · rw [h]; decide
      · exact h
    · exact Or.inr
  have h3 : (py_strip user_input ∈ InputValidator.recent_user_inputs ctx) ↔
      ∃ msg ∈ ctx.conversation_history.drop (ctx.conversation_history.length - 3),
        msg.role = "user" ∧ py_strip user_input = msg.content := by
    unfold InputValidator.recent_user_inputs
    simp only [List.mem_map, List.mem_filter]
    constructor
    · rintro ⟨msg, ⟨hmem, hrole⟩, hcontent⟩
      exact ⟨msg, hmem, by simpa using hrole, hcontent.symm⟩
    · rintro ⟨msg, hmem, hrole, hcontent⟩
      exact ⟨msg, ⟨hmem, by simpa using hrole⟩, hcontent.symm⟩
  have h4 : ((InputValidator.off_topic_keywords.any
        (fun kw => str_contains user_input.toLower kw)) = true) ↔
      ∃ kw ∈ InputValidator.off_topic_keywords, str_contains user_input.toLower kw := by
    simp [List.any_eq_true]
  unfold InputValidator.validate InputValidator.validate_claimed
  simp only [h1, h3, h4]

/-- The exceptions a module's `process` can raise that `safe_module_call`
distinguishes: `LLMCallException`, `StateInconsistencyException` (both
carrying their `message`), or any other exception (carrying `str(e)`). -/
inductive PyExn where
  | llm (msg : String)
  | state (msg : String)
  | unexpected (msg : String)
deriving DecidableEq, Repr

/-- What a call to a module's `process` can produce: a proper
`ModuleResponse`, some other Python value (which fails the `isinstance`
check; only its printed form matters here), or a raised exception. -/
inductive ProcResult where
  | val (r : ModuleResponse)
  | nonResponse (shown : String)
  | raises (e : PyExn)

/-- A content module under the `ModuleInterface` contract
(`module_interface.ModuleInterface`): its name, its precondition check
`validate_context` and its `process` behaviour on a given session state. -/
structure ContentModule where
  module_name : String
  validate_context : InterviewContext → Bool
  process : InterviewContext → ProcResult

/-- `exception_handler.safe_module_call`. The result triple records how often
`process` ran, the backoff sleeps performed, and the wrapper's return value —
which is `None` when the LLM-failure handler signals a retry. The failed
`isinstance` check raises `ValueError`, which is not an
`InterviewCoachException`, so it is caught by the generic `except Exception`
branch. -/
def safe_module_call (module : ContentModule) (context : InterviewContext) :
    Nat × List Nat × Option ModuleResponse :=
  if module.validate_context context = false then
    (0, [], some (create_error_response
      ("Context validation failed for " ++ module.module_name) ExceptionLevel.ERROR))
  else
    match module.process context with
    | ProcResult.val r => (1, [], some r)
    | ProcResult.nonResponse _ =>
      (1, [], some (create_error_response
        ("Unexpected error: " ++ module.module_name ++ " returned invalid response type")
        ExceptionLevel.CRITICAL))
    | ProcResult.raises (PyExn.llm _) =>
      (1, (ExceptionHandler.handle_llm_failure context 0 3).2.1,
        (ExceptionHandler.handle_llm_failure context 0 3).2.2)
    | ProcResult.raises (PyExn.state msg) =>
      (1, [], some (create_error_response msg ExceptionLevel.ERROR))
    | ProcResult.raises (PyExn.unexpected msg) =>
      (1, [], some (create_error_response ("Unexpected error: " ++ msg)
        ExceptionLevel.CRITICAL))

/-- C10: when `process` raises an `LLMCallException`, `safe_module_call` runs
`process` exactly once, sleeps the single backoff of 1 time unit that the
failure handler performs at its default retry count 0 against the maximum 3,
and returns `None` — not a `ModuleResponse` — with no re-attempt. -/
theorem llm_failure_single_attempt_returns_none (module : ContentModule)
    (ctx : InterviewContext) (msg : String)
    (hv : module.validate_context ctx = true)
    (hp : module.process ctx = ProcResult.raises (PyExn.llm msg)) :
    safe_module_call module ctx = (1, [1], none) := by
  unfold safe_module_call
  rw [hv, hp]
  simp [ExceptionHandler.handle_llm_failure]

/-- A module whose generation call always fails, for the C10 witness. -/
def failing_llm_module : ContentModule :=
  { module_name := "FailingModule"
    validate_context := fun _ => true
    process := fun _ => ProcResult.raises (PyExn.llm "LLM unavailable") }

/-- Witness for C10 on a concrete always-failing module. -/
theorem llm_failure_single_attempt_returns_none_witness :
    safe_module_call failing_llm_module (mock_context Stage.PROBLEM_CLARIFICATION) =
      (1, [1], none) :=
  llm_failure_single_attempt_returns_none failing_llm_module
    (mock_context Stage.PROBLEM_CLARIFICATION) "LLM unavailable" rfl rfl

/-- A module returning a malformed (non-`ModuleResponse`) value, for C2. -/
def malformed_module : ContentModule :=
  { module_name := "MalformedModule"
    validate_context := fun _ => true
    process := fun _ => ProcResult.nonResponse "a plain string" }

/-- Counterexample to C2 as stated: on a module returning a malformed value
the wrapper's response is the generic unexpected-failure response at CRITICAL
severity (the post-check raises `ValueError`, not
`StateInconsistencyException`), not a state-inconsistency failure at ERROR
severity. -/
theorem malformed_result_not_error_severity :
    (safe_module_call malformed_module (mock_context Stage.PROBLEM_CLARIFICATION)).2.2 =
      some (create_error_response
        "Unexpected error: MalformedModule returned invalid response type"
        ExceptionLevel.CRITICAL) ∧
    ExceptionLevel.CRITICAL ≠ ExceptionLevel.ERROR := by
  exact ⟨rfl, by decide⟩

/-- C2 amended: whenever `process` returns a value that is not a
`ModuleResponse`, the wrapper returns a failure response — success false,
CRITICAL severity via the generic unexpected-exception path, message naming
the invalid response type — and never propagates the malformed value. -/
theorem malformed_result_rejected (module : ContentModule) (ctx : InterviewContext)
    (shown : String)
    (hv : module.validate_context ctx = true)
    (hp : module.process ctx = ProcResult.nonResponse shown) :
    safe_module_call module ctx =
      (1, [], some (create_error_response
        ("Unexpected error: " ++ module.module_name ++ " returned invalid response type")
        ExceptionLevel.CRITICAL)) ∧
    ((safe_module_call module ctx).2.2.map ModuleResponse.success) = some false := by
  unfold safe_module_call
  rw [hv, hp]
  exact ⟨rfl, rfl⟩

/-- Witness for the amended C2 on the concrete malformed module. -/
theorem malformed_result_rejected_witness :
    safe_module_call malformed_module (mock_context Stage.PROBLEM_CLARIFICATION) =
      (1, [], some (create_error_response
        ("Unexpected error: " ++ malformed_module.module_name ++ " returned invalid response type")
        ExceptionLevel.CRITICAL)) ∧
    ((safe_module_call malformed_module (mock_context Stage.PROBLEM_CLARIFICATION)).2.2.map
      ModuleResponse.success) = some false :=
  malformed_result_rejected malformed_module (mock_context Stage.PROBLEM_CLARIFICATION)
    "a plain string" rfl rfl

/-- Modelled from the spec: the re-attempting caller of the generation-failure
handler is missing from the repository (`safe_module_call` returns the retry
signal without looping, and the handler's comment defers the re-call to
"actual use"). Following the spec's words — "if retries remain, wait using
exponential backoff and signal retry ... so that the caller re-attempts
generation" — each loop step makes one failing generation attempt, consults
`handle_llm_failure` with the number of retries already made, and on the
`None` signal waits and re-attempts. The accumulator carries (attempts made,
waits performed); the fuel is only a termination bound. -/
def retry_driver_go (ctx : InterviewContext) (max_retries : Nat) :
    Nat → Nat → List Nat → Nat × List Nat × Option ModuleResponse
  | 0, attempts, waits => (attempts, waits, none)
  | fuel + 1, attempts, waits =>
    match ExceptionHandler.handle_llm_failure ctx attempts max_retries with
    | (_, ws, none) => retry_driver_go ctx max_retries fuel (attempts + 1) (waits ++ ws)
    | (_, _, some r) => (attempts + 1, waits, some r)

/-- Modelled from the spec: a persistently failing generation call driven
against `handle_llm_failure` until it stops signalling retry; returns the
total number of attempts, the backoff waits, and the final response. -/
def retry_driver (ctx : InterviewContext) (max_retries : Nat) :
    Nat × List Nat × Option ModuleResponse :=
  retry_driver_go ctx max_retries (max_retries + 1) 0 []

/-- C1: with `max_retries = 3` a persistently failing generation call is
attempted 4 times in total — the initial attempt plus 3 retries — with
backoff waits of 1, 2 and 4 time units between attempts, and the final
response carries the fixed fallback template of the session's current stage
and the fallback-used flag, with no stage change. -/
theorem persistent_failure_four_attempts_then_fallback (ctx : InterviewContext) :
    retry_driver ctx 3 =
      (4, [1, 2, 4], some (create_success_response
        (ExceptionHandler.get_fallback_template ctx.current_stage)
        none
        [("fallback_used", CtxValue.bool true)])) := by
  rfl
